import Mathlib

/-!
Shallow embedding of
`src/python_submitty_utils/submitty_utils/submitty_schema_validator.py`.

Python values that flow through the validator (JSON-like trees plus Python
`None`) are modelled by `PyVal`; note that `json.load` turns a JSON `null`
into Python `None`, so `PyVal.none` plays both roles, exactly as in the
source.  Python exceptions that the module can raise are modelled by
`PyExc`: the module's own `SubmittySchemaException` plus the builtin
`AttributeError`, `KeyError` and `TypeError` that its attribute accesses
and subscripts can raise.  Output printed with a bare `print` (the
`WARNING:` lines) is collected in a `List String`; computations therefore
return a pair `List String × Except PyExc α` (`PyM α`).

The `jsonschema.validate` primitive is an external collaborator ("the
Matcher"): it is a parameter `m : Matcher` of every function, returning
`none` on success and `some e` (the `ValidationError`) on failure.
-/

/-- A Python value as used by the validator: JSON-like data plus `None`. -/
inductive PyVal where
  | none
  | bool (b : Bool)
  | int (n : Int)
  | str (s : String)
  | list (xs : List PyVal)
  | dict (kvs : List (String × PyVal))

/-- Python `v is None`. -/
def PyVal.isNone : PyVal → Bool
  | .none => true
  | _ => false

/-- Lookup in a dict modelling `d.get(key, None)`: an absent key yields
Python `None` (`PyVal.none`), as does a key stored with value `None`. -/
def dictGet : List (String × PyVal) → String → PyVal
  | [], _ => .none
  | (k, v) :: rest, key => if k = key then v else dictGet rest key

/-- Lookup in a dict modelling `d[key]`: `some` if the key is present. -/
def dictFind : List (String × PyVal) → String → Option PyVal
  | [], _ => Option.none
  | (k, v) :: rest, key => if k = key then some v else dictFind rest key

/-- The detail object of a `jsonschema.exceptions.ValidationError`; the
validator only ever reads its `message` attribute. -/
structure SchemaError where
  message : String

/-- The external Matcher (`jsonschema.validate`): `none` means the chunk
conforms, `some e` means it raised `ValidationError e`. -/
abbrev Matcher := PyVal → PyVal → Option SchemaError

/-- The `message` argument of `SubmittySchemaException.__init__`: the
non-conformance site passes a string, the schema-defect site passes a
2-tuple of strings (the source builds a tuple there, not a string). -/
inductive PyMsg where
  | str (s : String)
  | tuple2 (a b : String)

/-- Python `str(...)` of a `PyMsg`, as used by an f-string. -/
def PyMsg.fstr : PyMsg → String
  | .str s => s
  | .tuple2 a b =>
      "(" ++ "\x27" ++ a ++ "\x27, " ++ "\x27" ++ b ++ "\x27)"

/-- The fields stored on a constructed `SubmittySchemaException`. -/
structure SubmittySchemaException where
  config_json : PyVal
  schema : PyVal
  my_message : PyMsg
  title : String
  schema_message : Option String

/-- An exception escaping a function of the module. -/
inductive PyExc where
  | schemaExc (e : SubmittySchemaException)
  | attributeError (msg : String)
  | keyError (key : String)
  | typeError (msg : String)

/-- `SubmittySchemaException.__init__`.  The source unconditionally
evaluates `schema_error.message` (to pass it to `super().__init__` and to
store it as `self.schema_message`); when `schema_error` is `None` this
raises `AttributeError` before the exception object exists. -/
def SubmittySchemaException.init (config_json schema : PyVal) (message : PyMsg)
    (title : String) (schema_error : Option SchemaError) :
    Except PyExc SubmittySchemaException :=
  match schema_error with
  | Option.none =>
      .error (.attributeError "NoneType object has no attribute message")
  | some e =>
      .ok ⟨config_json, schema, message, title, some e.message⟩

/-- Which file descriptor a rendered line is printed to. -/
inductive Fd where
  | stdout
  | stderr

/-- `json.dumps(v, indent=4)` — a serialization of the offending chunk.
(The exact whitespace of Python's pretty-printer is not reproduced; the
claims only depend on the dump being a rendering of `config_json`.) -/
def jsonDumps : PyVal → String
  | .none => "null"
  | .bool b => cond b "true" "false"
  | .int n => toString n
  | .str s => "\x22" ++ s ++ "\x22"
  | .list xs =>
      "[" ++ String.intercalate ", "
        (xs.attach.map fun x => jsonDumps x.1) ++ "]"
  | .dict kvs =>
      "\x7b" ++ String.intercalate ", "
        (kvs.attach.map fun kv =>
          "\x22" ++ kv.1.1 ++ "\x22: " ++ jsonDumps kv.1.2) ++ "\x7d"
decreasing_by
  · have := List.sizeOf_lt_of_mem x.2
    simp only [PyVal.list.sizeOf_spec]
    omega
  · have h1 := List.sizeOf_lt_of_mem kv.2
    have h2 : sizeOf kv.1.2 < sizeOf kv.1 := by
      obtain ⟨a, b⟩ := kv.1
      simp only [Prod.mk.sizeOf_spec]
      omega
    simp only [PyVal.dict.sizeOf_spec]
    omega

/-- `SubmittySchemaException.print_human_readable_error`: the sequence of
`print` calls it performs, each tagged with its target stream.  The
config dump is printed only inside the `if self.schema_message is not
None` block, exactly as in the source. -/
def SubmittySchemaException.print_human_readable_error
    (e : SubmittySchemaException) : List (Fd × String) :=
  [(Fd.stderr, ""), (Fd.stderr, e.my_message.fstr ++ ":")] ++
  (match e.schema_message with
   | some sm =>
      [(Fd.stderr, sm),
       (Fd.stderr, "The portion of your configuration that caused the error is:"),
       (Fd.stderr, jsonDumps e.config_json)]
   | Option.none => [])

/-- A computation of the module: the `WARNING:` lines it prints (stdout,
in order) and either a value or the escaping exception. -/
abbrev PyM (α : Type) := List String × Except PyExc α

def PyM.pure {α : Type} (x : α) : PyM α := ([], .ok x)

def PyM.bind {α β : Type} (a : PyM α) (f : α → PyM β) : PyM β :=
  match a with
  | (w, .error e) => (w, .error e)
  | (w, .ok x) => let r := f x; (w ++ r.1, r.2)

/-- Lift an exception-only computation (no printing) into `PyM`. -/
def liftE {α : Type} (x : Except PyExc α) : PyM α := ([], x)

/-- The chunk-resolution prelude of `validate_schema` (lines 117-122):
`j_.get(key, None) if j_ is not None else j_`.  Calling `.get` on a
non-dict, non-`None` value raises `AttributeError`. -/
def pyGetOrNone (v : PyVal) (key : String) : Except PyExc PyVal :=
  match v with
  | .none => .ok .none
  | .dict kvs => .ok (dictGet kvs key)
  | _ => .error (.attributeError "object has no attribute get")

/-- Resolve `(my_json_chunk, my_schema)` from `(j_, s_, key)`, in source
order: the document side is evaluated before the schema side. -/
def resolveChunks (j_ s_ : PyVal) (key : String) :
    Except PyExc (PyVal × PyVal) :=
  if key ≠ "" then
    match pyGetOrNone j_ key with
    | .error e => .error e
    | .ok mj =>
      match pyGetOrNone s_ key with
      | .error e => .error e
      | .ok ms => .ok (mj, ms)
  else .ok (j_, s_)

/-- `validate_schema(j_, s_, key, prefix, required, warn)` (the `prefix`
parameter is spelled `pfx` because `prefix` is a Lean keyword).  The
`required` parameter is accepted and, as in the source, never consulted. -/
def validate_schema (m : Matcher) (j_ s_ : PyVal) (key : String)
    (pfx : String) (required : Bool) (warn : Bool) : PyM Unit :=
  let descriptive_title := pfx ++ " " ++ key
  match resolveChunks j_ s_ key with
  | .error e => ([], .error e)
  | .ok (my_json_chunk, my_schema) =>
    if my_schema.isNone then
      let msg := PyMsg.tuple2
        ("ERROR: There is no specification for " ++ key ++ " in the schema.")
        " Please add a specification."
      match SubmittySchemaException.init j_ s_ msg descriptive_title
          Option.none with
      | .error e => ([], .error e)
      | .ok exc => ([], .error (.schemaExc exc))
    else if my_json_chunk.isNone then
      (if warn then
        ["WARNING: could not identify " ++ descriptive_title ++
          " (" ++ key ++ ")"]
       else [], .ok ())
    else
      match m my_json_chunk my_schema with
      | Option.none => ([], .ok ())
      | some e =>
        let msg := "ERROR: " ++ descriptive_title ++
          " was not properly formatted"
        match SubmittySchemaException.init my_json_chunk my_schema
            (.str msg) descriptive_title (some e) with
        | .error pe => ([], .error pe)
        | .ok exc => ([], .error (.schemaExc exc))

/-- Python subscript `v[key]`: `KeyError` on an absent dict key,
`TypeError` when `v` is not subscriptable by a string. -/
def pySubscript (v : PyVal) (key : String) : Except PyExc PyVal :=
  match v with
  | .dict kvs =>
    match dictFind kvs key with
    | some x => .ok x
    | Option.none => .error (.keyError key)
  | _ => .error (.typeError "object is not subscriptable")

/-- Python iteration `for x in v`: lists yield elements, dicts their keys,
strings their characters; other values raise `TypeError`. -/
def pyIter (v : PyVal) : Except PyExc (List PyVal) :=
  match v with
  | .list xs => .ok xs
  | .dict kvs => .ok (kvs.map fun kv => PyVal.str kv.1)
  | .str s => .ok (s.data.map fun c => PyVal.str (String.mk [c]))
  | _ => .error (.typeError "object is not iterable")

/-- The fixed list of global keys checked by the driver (lines 45-46). -/
def globalKeys : List String :=
  ["autograding", "autograding_method", "container_options",
   "resource_limits"]

/-- The fixed list of per-testcase keys checked by the driver
(lines 79-83). -/
def testcaseKeys : List String :=
  ["dispatcher_actions", "actions", "points", "type",
   "pre_commands", "single_port_per_container",
   "use_router", "title", "hidden", "extra_credit",
   "input_generation_commands", "executable_name",
   "testcase_label"]

/-- `for key in keys: validate_schema(j_, s_, key, pfx, warn=warn)` for a
fixed key list; the first exception aborts the loop. -/
def validateKeys (m : Matcher) (j_ s_ : PyVal) (keys : List String)
    (pfx : String) (warn : Bool) : PyM Unit :=
  match keys with
  | [] => PyM.pure ()
  | k :: rest =>
    PyM.bind (validate_schema m j_ s_ k pfx true warn) fun _ =>
      validateKeys m j_ s_ rest pfx warn

/-- `for c in cs: validate_schema(c, schema, prefix=pfx, warn=warn)` —
the container loops (lines 88-93). -/
def validateEach (m : Matcher) (cs : List PyVal) (schema : PyVal)
    (pfx : String) (warn : Bool) : PyM Unit :=
  match cs with
  | [] => PyM.pure ()
  | c :: rest =>
    PyM.bind (validate_schema m c schema "" pfx true warn) fun _ =>
      validateEach m rest schema pfx warn

/-- The validation-object loop (lines 98-101): each entry is checked
against both the abstract and the specific validator schema.  The local
`validator_num` counter of the source is incremented but never read, so
it is not modelled. -/
def validateValidators (m : Matcher) (vs : List PyVal)
    (abs_v spec_v : PyVal) (pfx : String) (warn : Bool) : PyM Unit :=
  match vs with
  | [] => PyM.pure ()
  | v :: rest =>
    PyM.bind (validate_schema m v abs_v "" pfx true warn) fun _ =>
    PyM.bind (validate_schema m v spec_v "" pfx true warn) fun _ =>
      validateValidators m rest abs_v spec_v pfx warn

/-- One iteration of the disambiguation `for extra_schema in ...` loop
body (lines 67-72): on success bump `testcase_num` and set `success`; a
`SubmittySchemaException` is swallowed by the `except` clause; any other
exception escapes (returned as `some` in the second component). -/
def tryOne (m : Matcher) (t es : PyVal) (warn : Bool) (num : Nat)
    (success : Bool) : List String × Option PyExc × Nat × Bool :=
  let r := validate_schema m t es "" "" false warn
  match r.2 with
  | .ok _ => (r.1, Option.none, num + 1, true)
  | .error (.schemaExc _) => (r.1, Option.none, num, success)
  | .error e => (r.1, some e, num, success)

/-- The full disambiguation loop over
`[sub_limit_schema, filecheck_schema]` (lines 65-72).  The source has no
`break`: the filecheck attempt runs even when the submission-limit
attempt already succeeded. -/
def disambiguate (m : Matcher) (t subS fileS : PyVal) (warn : Bool)
    (num : Nat) : List String × Option PyExc × Nat × Bool :=
  let r1 := tryOne m t subS warn num false
  match r1.2.1 with
  | some e => (r1.1, some e, r1.2.2.1, r1.2.2.2)
  | Option.none =>
    let r2 := tryOne m t fileS warn r1.2.2.1 r1.2.2.2
    (r1.1 ++ r2.1, r2.2)

/-- The regular-testcase body (lines 77-104): the thirteen per-key
checks, the `containers`, `solution_containers` and `validation` loops,
the `testcase_num` increment, and the final whole-testcase check.
Returns the updated `testcase_num`. -/
def regularTestcase (m : Matcher) (t t_s p_s c_schema abs_v spec_v : PyVal)
    (warn : Bool) (num : Nat) : PyM Nat :=
  let t_name := "testcase_" ++ toString num
  PyM.bind (validateKeys m t p_s testcaseKeys t_name warn) fun _ =>
  PyM.bind (liftE (pySubscript t "containers")) fun cv =>
  PyM.bind (liftE (pyIter cv)) fun containers =>
  PyM.bind (validateEach m containers c_schema t_name warn) fun _ =>
  PyM.bind (liftE (pySubscript t "solution_containers")) fun sv =>
  PyM.bind (liftE (pyIter sv)) fun solution_containers =>
  PyM.bind (validateEach m solution_containers c_schema t_name warn) fun _ =>
  PyM.bind (liftE (pySubscript t "validation")) fun vv =>
  PyM.bind (liftE (pyIter vv)) fun validators =>
  PyM.bind (validateValidators m validators abs_v spec_v t_name warn) fun _ =>
  PyM.bind (validate_schema m t t_s "" t_name true warn) fun _ =>
  PyM.pure (num + 1)

/-- The `for t in testcases` loop (lines 61-104), threading
`testcase_num` explicitly. -/
def testcasesLoop (m : Matcher) (ts : List PyVal)
    (t_s p_s subS fileS c_schema abs_v spec_v : PyVal)
    (warn : Bool) (num : Nat) : PyM Unit :=
  match ts with
  | [] => PyM.pure ()
  | t :: rest =>
    let d := disambiguate m t subS fileS warn num
    match d.2.1 with
    | some e => (d.1, .error e)
    | Option.none =>
      if d.2.2.2 then
        let r := testcasesLoop m rest t_s p_s subS fileS c_schema abs_v
          spec_v warn d.2.2.1
        (d.1 ++ r.1, r.2)
      else
        let rt := regularTestcase m t t_s p_s c_schema abs_v spec_v warn
          d.2.2.1
        match rt.2 with
        | .error e => (d.1 ++ rt.1, .error e)
        | .ok n2 =>
          let r := testcasesLoop m rest t_s p_s subS fileS c_schema abs_v
            spec_v warn n2
          (d.1 ++ rt.1 ++ r.1, r.2)

/-- Lines 43-104 of `complete_config_validator`: everything before the
final whole-document check.  The source looks up `s_['definitions']`
afresh on each of lines 51-57; the lookup is pure, so it is hoisted into
`defs` with identical behaviour. -/
def piecewise_checks (m : Matcher) (j_ s_ : PyVal) (warn : Bool) :
    PyM Unit :=
  PyM.bind (liftE (pySubscript s_ "properties")) fun s_prop =>
  PyM.bind (validateKeys m j_ s_prop globalKeys "global" warn) fun _ =>
  PyM.bind (liftE (pySubscript j_ "testcases")) fun testcases_v =>
  PyM.bind (liftE (pySubscript s_ "definitions")) fun defs =>
  PyM.bind (liftE (pySubscript defs "testcase")) fun t_s =>
  PyM.bind (liftE (pySubscript t_s "properties")) fun p_s =>
  PyM.bind (liftE (pySubscript defs "submission_limit")) fun sub_limit_schema =>
  PyM.bind (liftE (pySubscript defs "filecheck")) fun filecheck_schema =>
  PyM.bind (liftE (pySubscript defs "container")) fun c_schema =>
  PyM.bind (liftE (pySubscript defs "abstract_validation_object")) fun abs_v_schema =>
  PyM.bind (liftE (pySubscript defs "validator_definitions")) fun spec_v_schema =>
  PyM.bind (liftE (pyIter testcases_v)) fun testcases =>
  testcasesLoop m testcases t_s p_s sub_limit_schema filecheck_schema
    c_schema abs_v_schema spec_v_schema warn 1

/-- `complete_config_validator(j_, s_, warn)`: the piecewise checks
followed by the final whole-document check (line 106). -/
def complete_config_validator (m : Matcher) (j_ s_ : PyVal) (warn : Bool) :
    PyM Unit :=
  PyM.bind (piecewise_checks m j_ s_ warn) fun _ =>
    validate_schema m j_ s_ "" "Your config json" true warn

/-- A Matcher that accepts every chunk. -/
def okMatcher : Matcher := fun _ _ => Option.none

/-- A Matcher that rejects every chunk with a fixed detail message. -/
def rejectMatcher : Matcher := fun _ _ => some ⟨"invalid value"⟩

/-- A minimal configuration whose piecewise checks all pass (all optional
chunks absent, empty testcase list) with the all-accepting matcher. -/
def witnessConfig : PyVal := PyVal.dict [("testcases", PyVal.list [])]

/-- A schema declaring the four global keys and the six definitions the
driver looks up. -/
def witnessSchema : PyVal := PyVal.dict
  [("properties", PyVal.dict
     [("autograding", PyVal.dict []),
      ("autograding_method", PyVal.dict []),
      ("container_options", PyVal.dict []),
      ("resource_limits", PyVal.dict [])]),
   ("definitions", PyVal.dict
     [("testcase", PyVal.dict [("properties", PyVal.dict [])]),
      ("submission_limit", PyVal.dict []),
      ("filecheck", PyVal.dict []),
      ("container", PyVal.dict []),
      ("abstract_validation_object", PyVal.dict []),
      ("validator_definitions", PyVal.dict [])])]

/-- The WARNING line printed by a disambiguation attempt on a `None`
entry: both the prefix and the key are empty there, so the descriptive
title is a single space. -/
def nullAttemptWarning : String := "WARNING: could not identify   ()"

/-! ### Helper lemmas

The `..._snd` lemmas state that the `Except` component of each function
does not depend on `warn` (only the printed warnings do).  They feed the
proof of claim C8. -/

theorem PyM.bind_ok {α β : Type} (w : List String) (x : α) (f : α → PyM β) :
    PyM.bind (w, .ok x) f = (w ++ (f x).1, (f x).2) := rfl

theorem PyM.bind_error {α β : Type} (w : List String) (e : PyExc)
    (f : α → PyM β) : PyM.bind (w, .error e) f = (w, .error e) := rfl

theorem PyM.bind_snd {α β : Type} {a b : PyM α} {f g : α → PyM β}
    (h : a.2 = b.2) (hf : ∀ x, (f x).2 = (g x).2) :
    (PyM.bind a f).2 = (PyM.bind b g).2 := by
  obtain ⟨wa, ra⟩ := a
  obtain ⟨wb, rb⟩ := b
  replace h : ra = rb := h
  subst h
  cases ra with
  | error e => rfl
  | ok x => exact hf x

theorem validate_schema_snd (m : Matcher) (j_ s_ : PyVal) (key pfx : String)
    (required : Bool) (w w' : Bool) :
    (validate_schema m j_ s_ key pfx required w).2
      = (validate_schema m j_ s_ key pfx required w').2 := by
  unfold validate_schema
  cases hr : resolveChunks j_ s_ key with
  | error e => rfl
  | ok p =>
    obtain ⟨mj, ms⟩ := p
    dsimp only
    cases hms : ms.isNone with
    | true => rfl
    | false =>
      cases hmj : mj.isNone with
      | true => rfl
      | false => cases m mj ms <;> rfl

theorem validateKeys_snd (m : Matcher) (j_ s_ : PyVal) (keys : List String)
    (pfx : String) (w w' : Bool) :
    (validateKeys m j_ s_ keys pfx w).2
      = (validateKeys m j_ s_ keys pfx w').2 := by
  induction keys with
  | nil => rfl
  | cons k rest ih =>
    exact PyM.bind_snd (validate_schema_snd m j_ s_ k pfx true w w')
      fun _ => ih

theorem validateEach_snd (m : Matcher) (cs : List PyVal) (schema : PyVal)
    (pfx : String) (w w' : Bool) :
    (validateEach m cs schema pfx w).2
      = (validateEach m cs schema pfx w').2 := by
  induction cs with
  | nil => rfl
  | cons c rest ih =>
    exact PyM.bind_snd (validate_schema_snd m c schema "" pfx true w w')
      fun _ => ih

theorem validateValidators_snd (m : Matcher) (vs : List PyVal)
    (abs_v spec_v : PyVal) (pfx : String) (w w' : Bool) :
    (validateValidators m vs abs_v spec_v pfx w).2
      = (validateValidators m vs abs_v spec_v pfx w').2 := by
  induction vs with
  | nil => rfl
  | cons v rest ih =>
    exact PyM.bind_snd (validate_schema_snd m v abs_v "" pfx true w w')
      fun _ => PyM.bind_snd (validate_schema_snd m v spec_v "" pfx true w w')
        fun _ => ih

theorem tryOne_snd (m : Matcher) (t es : PyVal) (num : Nat) (sc : Bool)
    (w w' : Bool) :
    (tryOne m t es w num sc).2 = (tryOne m t es w' num sc).2 := by
  unfold tryOne
  dsimp only
  rw [validate_schema_snd m t es "" "" false w w']
  cases hv : (validate_schema m t es "" "" false w').2 with
  | ok u => rfl
  | error e0 => cases e0 <;> rfl

theorem disambiguate_snd (m : Matcher) (t subS fileS : PyVal) (num : Nat)
    (w w' : Bool) :
    (disambiguate m t subS fileS w num).2
      = (disambiguate m t subS fileS w' num).2 := by
  unfold disambiguate
  dsimp only
  rw [tryOne_snd m t subS num false w w']
  cases ho : (tryOne m t subS w' num false).2.1 with
  | some e => rfl
  | none =>
    exact tryOne_snd m t fileS (tryOne m t subS w' num false).2.2.1
      (tryOne m t subS w' num false).2.2.2 w w'

theorem regularTestcase_snd (m : Matcher)
    (t t_s p_s c_schema abs_v spec_v : PyVal) (num : Nat) (w w' : Bool) :
    (regularTestcase m t t_s p_s c_schema abs_v spec_v w num).2
      = (regularTestcase m t t_s p_s c_schema abs_v spec_v w' num).2 := by
  unfold regularTestcase
  dsimp only
  refine PyM.bind_snd
    (validateKeys_snd m t p_s testcaseKeys ("testcase_" ++ toString num) w w')
    fun _ => ?_
  refine PyM.bind_snd rfl fun cv => ?_
  refine PyM.bind_snd rfl fun containers => ?_
  refine PyM.bind_snd
    (validateEach_snd m containers c_schema ("testcase_" ++ toString num) w w')
    fun _ => ?_
  refine PyM.bind_snd rfl fun sv => ?_
  refine PyM.bind_snd rfl fun sol => ?_
  refine PyM.bind_snd
    (validateEach_snd m sol c_schema ("testcase_" ++ toString num) w w')
    fun _ => ?_
  refine PyM.bind_snd rfl fun vv => ?_
  refine PyM.bind_snd rfl fun validators => ?_
  refine PyM.bind_snd
    (validateValidators_snd m validators abs_v spec_v
      ("testcase_" ++ toString num) w w')
    fun _ => ?_
  refine PyM.bind_snd
    (validate_schema_snd m t t_s "" ("testcase_" ++ toString num) true w w')
    fun _ => ?_
  rfl

theorem testcasesLoop_snd (m : Matcher) (ts : List PyVal)
    (t_s p_s subS fileS c_schema abs_v spec_v : PyVal) (num : Nat)
    (w w' : Bool) :
    (testcasesLoop m ts t_s p_s subS fileS c_schema abs_v spec_v w num).2
      = (testcasesLoop m ts t_s p_s subS fileS c_schema abs_v spec_v w' num).2 := by
  induction ts generalizing num with
  | nil => rfl
  | cons t rest ih =>
    unfold testcasesLoop
    dsimp only
    rw [disambiguate_snd m t subS fileS num w w']
    cases ho : (disambiguate m t subS fileS w' num).2.1 with
    | some e => rfl
    | none =>
      cases hs : (disambiguate m t subS fileS w' num).2.2.2 with
      | true => exact ih _
      | false =>
        rw [regularTestcase_snd m t t_s p_s c_schema abs_v spec_v
          (disambiguate m t subS fileS w' num).2.2.1 w w']
        cases hr2 : (regularTestcase m t t_s p_s c_schema abs_v spec_v w'
            (disambiguate m t subS fileS w' num).2.2.1).2 with
        | error e => rfl
        | ok n2 => exact ih n2

theorem piecewise_checks_snd (m : Matcher) (j_ s_ : PyVal) (w w' : Bool) :
    (piecewise_checks m j_ s_ w).2 = (piecewise_checks m j_ s_ w').2 := by
  unfold piecewise_checks
  refine PyM.bind_snd rfl fun s_prop => ?_
  refine PyM.bind_snd (validateKeys_snd m j_ s_prop globalKeys "global" w w')
    fun _ => ?_
  refine PyM.bind_snd rfl fun tv => ?_
  refine PyM.bind_snd rfl fun defs => ?_
  refine PyM.bind_snd rfl fun t_s => ?_
  refine PyM.bind_snd rfl fun p_s => ?_
  refine PyM.bind_snd rfl fun subS => ?_
  refine PyM.bind_snd rfl fun fileS => ?_
  refine PyM.bind_snd rfl fun c_schema => ?_
  refine PyM.bind_snd rfl fun abs_v => ?_
  refine PyM.bind_snd rfl fun spec_v => ?_
  refine PyM.bind_snd rfl fun testcases => ?_
  exact testcasesLoop_snd m testcases t_s p_s subS fileS c_schema abs_v
    spec_v 1 w w'

/-! ### Claim theorems -/

/-- Claim C1 (code bug): when `validate_schema` is called with a
non-empty key whose resolved schema chunk is absent, validation does fail
immediately regardless of `required`/`warn` — but the failure is an
`AttributeError` escaping from `SubmittySchemaException.__init__` (which
dereferences `schema_error.message` with `schema_error=None`), not a
`SubmittySchemaException` as the claim states.  Shown here for key `"x"`
against a schema with no entry for it, for every matcher, document dict,
prefix and `required`/`warn` setting. -/
theorem C1_schema_defect_raises_attribute_error (m : Matcher)
    (kvs : List (String × PyVal)) (pfx : String) (required warn : Bool) :
    validate_schema m (PyVal.dict kvs) (PyVal.dict []) "x" pfx required warn
      = ([], .error (.attributeError
          "NoneType object has no attribute message")) := rfl

/-- Claim C9: the `required` parameter of `validate_schema` has no effect
on behaviour — the call with `required = r1` returns, warns and raises
identically to the call with `required = r2`, for every matcher,
document, schema, key, prefix and warn setting. -/
theorem C9_required_has_no_effect (m : Matcher) (j_ s_ : PyVal)
    (key pfx : String) (warn r1 r2 : Bool) :
    validate_schema m j_ s_ key pfx r1 warn
      = validate_schema m j_ s_ key pfx r2 warn := rfl

/-- Claim C8: the `warn` flag does not affect the pass/fail outcome of
`complete_config_validator` — the `Except` component of the result (both
whether it raises and which exception it raises) is identical for
`warn=true` and `warn=false`; `warn` only controls the printed WARNING
lines. -/
theorem C8_warn_does_not_affect_outcome (m : Matcher) (j_ s_ : PyVal) :
    (complete_config_validator m j_ s_ true).2
      = (complete_config_validator m j_ s_ false).2 := by
  unfold complete_config_validator
  exact PyM.bind_snd (piecewise_checks_snd m j_ s_ true false)
    fun _ => validate_schema_snd m j_ s_ "" "Your config json" true true false

/-- Claim C2, counterexample: the claim asserts that absence of a key the
driver touches is never itself a failure, "including 'testcases'".  But
`complete_config_validator` reads `j_["testcases"]` by direct subscript:
on a configuration without a `testcases` key (here the empty dict,
against a schema declaring all four global keys) it raises `KeyError`
even with `warn=false`, for every matcher behaviour (shown with the
all-accepting matcher). -/
theorem C2_missing_testcases_key_raises :
    complete_config_validator okMatcher (PyVal.dict [])
      (PyVal.dict [("properties", PyVal.dict
        [("autograding", PyVal.dict []),
         ("autograding_method", PyVal.dict []),
         ("container_options", PyVal.dict []),
         ("resource_limits", PyVal.dict [])])]) false
      = ([], .error (.keyError "testcases")) := rfl

/-- Claim C2, amended: for every key that the driver checks through
`validate_schema` (the four global keys and the thirteen per-testcase
keys), an absent document chunk whose schema chunk is present never
raises: with `warn=false` the call succeeds silently, with `warn=true` it
succeeds after printing one WARNING line.  (The keys `testcases`,
`containers`, `solution_containers` and `validation` are instead read by
direct subscripting and their absence raises `KeyError`, see the
counterexample.) -/
theorem C2_absent_optional_chunk_never_fails (m : Matcher) (j_ s_ : PyVal)
    (key pfx : String) (required warn : Bool) (ms : PyVal)
    (hres : resolveChunks j_ s_ key = .ok (PyVal.none, ms))
    (hms : ms.isNone = false) :
    validate_schema m j_ s_ key pfx required warn =
      ((if warn then
          ["WARNING: could not identify " ++ (pfx ++ " " ++ key) ++
            " (" ++ key ++ ")"]
        else []), .ok ()) := by
  unfold validate_schema
  rw [hres]
  dsimp only
  rw [hms]
  rfl

theorem C2_absent_optional_chunk_never_fails_witness :
    resolveChunks (PyVal.dict []) (PyVal.dict [("autograding", PyVal.dict [])])
        "autograding" = .ok (PyVal.none, PyVal.dict []) ∧
    (PyVal.dict []).isNone = false ∧
    validate_schema okMatcher (PyVal.dict [])
        (PyVal.dict [("autograding", PyVal.dict [])]) "autograding"
        "global" true true
      = (["WARNING: could not identify global autograding (autograding)"],
         .ok ()) :=
  ⟨rfl, rfl,
   C2_absent_optional_chunk_never_fails okMatcher (PyVal.dict [])
     (PyVal.dict [("autograding", PyVal.dict [])]) "autograding" "global"
     true true (PyVal.dict []) rfl rfl⟩

/-- Claim C3 (code bug): the source comment says "We check sub-limit
first and short circuit", but the disambiguation loop has no `break`.
For a testcase entry that successfully matches the submission-limit
schema (here the empty dict, with a matcher accepting it against both
schemas), the filecheck attempt is still executed and also succeeds, so
`testcase_num` advances from 1 to 3 — by two, not by exactly one as the
claim states. -/
theorem C3_no_short_circuit_double_increment :
    disambiguate okMatcher (PyVal.dict []) (PyVal.dict []) (PyVal.dict [])
      false 1 = ([], Option.none, 3, true) := rfl

/-- Claim C5, counterexample: the claim says the descriptive title equals
`"{prefix} {key}"` trimmed of surrounding whitespace.  The source never
trims: validating a whole chunk (`key=""`) with prefix `testcase_1`
raises a report whose title is `"testcase_1 "`: its characters are those
of the trimmed form `"testcase_1"` followed by a trailing space, so the
title differs from `"{prefix} {key}"` trimmed of surrounding whitespace;
the summary also carries an `ERROR: ` prefix. -/
theorem C5_title_not_trimmed :
    (validate_schema rejectMatcher (PyVal.dict [])
        (PyVal.dict [("x", PyVal.int 1)]) "" "testcase_1" true false
      = ([], .error (.schemaExc ⟨PyVal.dict [],
          PyVal.dict [("x", PyVal.int 1)],
          PyMsg.str "ERROR: testcase_1  was not properly formatted",
          "testcase_1 ", some "invalid value"⟩))) ∧
    ("testcase_1 ").data = ("testcase_1").data ++ [' '] ∧
    "testcase_1 " ≠ "testcase_1" :=
  ⟨rfl, rfl, by decide⟩

/-- Claim C5, amended: on a resolved `(doc_chunk, schema_chunk)` pair
rejected by the Matcher, the raised `SubmittySchemaException` carries
exactly that `doc_chunk` and `schema_chunk` (not the whole document), the
summary message `"ERROR: {prefix} {key} was not properly formatted"`, the
descriptive title exactly `"{prefix} {key}"` with no trimming, and the
Matcher's own violation detail message. -/
theorem C5_violation_report_contents (m : Matcher) (j_ s_ : PyVal)
    (key pfx : String) (required warn : Bool) (mj ms : PyVal)
    (er : SchemaError)
    (hres : resolveChunks j_ s_ key = .ok (mj, ms))
    (hms : ms.isNone = false) (hmj : mj.isNone = false)
    (hm : m mj ms = some er) :
    validate_schema m j_ s_ key pfx required warn =
      ([], .error (.schemaExc ⟨mj, ms,
        PyMsg.str ("ERROR: " ++ (pfx ++ " " ++ key) ++
          " was not properly formatted"),
        pfx ++ " " ++ key, some er.message⟩)) := by
  unfold validate_schema
  rw [hres]
  dsimp only
  rw [hms, hmj, hm]
  rfl

theorem C5_violation_report_contents_witness :
    resolveChunks (PyVal.dict [("points", PyVal.int 5)])
        (PyVal.dict [("points", PyVal.dict [])]) "points"
      = .ok (PyVal.int 5, PyVal.dict []) ∧
    (PyVal.dict []).isNone = false ∧
    (PyVal.int 5).isNone = false ∧
    rejectMatcher (PyVal.int 5) (PyVal.dict []) = some ⟨"invalid value"⟩ ∧
    validate_schema rejectMatcher (PyVal.dict [("points", PyVal.int 5)])
        (PyVal.dict [("points", PyVal.dict [])]) "points" "testcase_1"
        true false
      = ([], .error (.schemaExc ⟨PyVal.int 5, PyVal.dict [],
          PyMsg.str "ERROR: testcase_1 points was not properly formatted",
          "testcase_1 points", some "invalid value"⟩)) :=
  ⟨rfl, rfl, rfl, rfl,
   C5_violation_report_contents rejectMatcher
     (PyVal.dict [("points", PyVal.int 5)])
     (PyVal.dict [("points", PyVal.dict [])]) "points" "testcase_1"
     true false (PyVal.int 5) (PyVal.dict []) ⟨"invalid value"⟩
     rfl rfl rfl rfl⟩

/-- Claim C4: the whole-document validation runs last: whenever all the
piecewise checks pass, the outcome of the whole run is exactly the
outcome of validating the entire configuration against the entire schema
(with prefix `Your config json`).  In particular a configuration that
passes every piecewise check but is rejected by the Matcher on the whole
document still raises via this final step. -/
theorem C4_whole_document_check_runs_last (m : Matcher) (j_ s_ : PyVal)
    (warn : Bool)
    (h : (piecewise_checks m j_ s_ warn).2 = .ok ()) :
    (complete_config_validator m j_ s_ warn).2
      = (validate_schema m j_ s_ "" "Your config json" true warn).2 := by
  unfold complete_config_validator
  rcases hpw : piecewise_checks m j_ s_ warn with ⟨w, r⟩
  rw [hpw] at h
  replace h : r = .ok () := h
  subst h
  rw [PyM.bind_ok]

theorem C4_whole_document_check_runs_last_witness :
    (piecewise_checks okMatcher witnessConfig witnessSchema false).2
      = .ok () ∧
    (complete_config_validator okMatcher witnessConfig witnessSchema
        false).2
      = (validate_schema okMatcher witnessConfig witnessSchema ""
          "Your config json" true false).2 :=
  ⟨rfl, C4_whole_document_check_runs_last okMatcher witnessConfig
    witnessSchema false rfl⟩

/-- Claim C6: every constructible Violation Report (every
`SubmittySchemaException` whose constructor returns instead of raising)
renders as: a blank line, the summary line, the Matcher's detail message,
the fixed header, and the pretty-printed dump of the offending
`config_json` — the dump is printed in every rendered report — and every
line goes to the error stream, never to standard output.  (A report
without a Matcher detail cannot be constructed: `__init__` raises
`AttributeError` when `schema_error` is `None`, see claim C1.) -/
theorem C6_render_order_and_streams (cfg sch : PyVal) (msg : PyMsg)
    (title : String) (oer : Option SchemaError)
    (e : SubmittySchemaException)
    (h : SubmittySchemaException.init cfg sch msg title oer = .ok e) :
    (∀ l ∈ e.print_human_readable_error, l.1 = Fd.stderr) ∧
    ∃ d : String, e.print_human_readable_error =
      [(Fd.stderr, ""), (Fd.stderr, msg.fstr ++ ":"), (Fd.stderr, d),
       (Fd.stderr,
         "The portion of your configuration that caused the error is:"),
       (Fd.stderr, jsonDumps cfg)] := by
  cases oer with
  | none => exact absurd h (by simp [SubmittySchemaException.init])
  | some er =>
    replace h : Except.ok (ε := PyExc)
        (⟨cfg, sch, msg, title, some er.message⟩ :
          SubmittySchemaException) = .ok e := h
    rw [Except.ok.injEq] at h
    subst h
    refine ⟨?_, er.message, rfl⟩
    intro l hl
    fin_cases hl <;> rfl

theorem C6_render_order_and_streams_witness :
    SubmittySchemaException.init (PyVal.dict []) (PyVal.dict [])
        (PyMsg.str "ERROR: t x was not properly formatted") "t x"
        (some ⟨"detail"⟩)
      = .ok ⟨PyVal.dict [], PyVal.dict [],
          PyMsg.str "ERROR: t x was not properly formatted", "t x",
          some "detail"⟩ ∧
    ((∀ l ∈ (⟨PyVal.dict [], PyVal.dict [],
          PyMsg.str "ERROR: t x was not properly formatted", "t x",
          some "detail"⟩ :
          SubmittySchemaException).print_human_readable_error,
        l.1 = Fd.stderr) ∧
      ∃ d : String,
        (⟨PyVal.dict [], PyVal.dict [],
          PyMsg.str "ERROR: t x was not properly formatted", "t x",
          some "detail"⟩ :
          SubmittySchemaException).print_human_readable_error =
        [(Fd.stderr, ""),
         (Fd.stderr,
           (PyMsg.str "ERROR: t x was not properly formatted").fstr ++ ":"),
         (Fd.stderr, d),
         (Fd.stderr,
           "The portion of your configuration that caused the error is:"),
         (Fd.stderr, jsonDumps (PyVal.dict []))]) :=
  ⟨rfl, C6_render_order_and_streams (PyVal.dict []) (PyVal.dict [])
    (PyMsg.str "ERROR: t x was not properly formatted") "t x"
    (some ⟨"detail"⟩) _ rfl⟩

/-- Claim C7: validation is fail-fast and the global step precedes the
testcase loop: if the global key checks raise a Violation Report, the
entire run produces exactly that exception (with exactly the warnings
printed so far), no matter what the testcase list contains — any later
violation is never reached. -/
theorem C7_first_violation_aborts (m : Matcher) (j_ s_ sp : PyVal)
    (warn : Bool) (w : List String) (e : PyExc)
    (hp : pySubscript s_ "properties" = .ok sp)
    (hg : validateKeys m j_ sp globalKeys "global" warn = (w, .error e)) :
    complete_config_validator m j_ s_ warn = (w, .error e) := by
  unfold complete_config_validator piecewise_checks
  rw [hp]
  show PyM.bind (PyM.bind ([], Except.ok sp) _) _ = _
  rw [PyM.bind_ok]
  rw [hg, PyM.bind_error, List.nil_append, PyM.bind_error]

/-- The C7 witness also exhibits fail-fast concretely: the document lacks
a `testcases` key (which alone would raise `KeyError`, see C2's
counterexample), yet the reported error is the earlier global
`autograding` violation. -/
theorem C7_first_violation_aborts_witness :
    pySubscript
        (PyVal.dict [("properties",
          PyVal.dict [("autograding", PyVal.dict [])])]) "properties"
      = .ok (PyVal.dict [("autograding", PyVal.dict [])]) ∧
    validateKeys rejectMatcher (PyVal.dict [("autograding", PyVal.int 1)])
        (PyVal.dict [("autograding", PyVal.dict [])]) globalKeys "global"
        true
      = ([], .error (.schemaExc ⟨PyVal.int 1, PyVal.dict [],
          PyMsg.str "ERROR: global autograding was not properly formatted",
          "global autograding", some "invalid value"⟩)) ∧
    complete_config_validator rejectMatcher
        (PyVal.dict [("autograding", PyVal.int 1)])
        (PyVal.dict [("properties",
          PyVal.dict [("autograding", PyVal.dict [])])]) true
      = ([], .error (.schemaExc ⟨PyVal.int 1, PyVal.dict [],
          PyMsg.str "ERROR: global autograding was not properly formatted",
          "global autograding", some "invalid value"⟩)) :=
  ⟨rfl, rfl,
   C7_first_violation_aborts rejectMatcher
     (PyVal.dict [("autograding", PyVal.int 1)])
     (PyVal.dict [("properties",
       PyVal.dict [("autograding", PyVal.dict [])])])
     (PyVal.dict [("autograding", PyVal.dict [])]) true []
     (.schemaExc ⟨PyVal.int 1, PyVal.dict [],
       PyMsg.str "ERROR: global autograding was not properly formatted",
       "global autograding", some "invalid value"⟩)
     rfl rfl⟩

/-- Claim C10: a `None` testcase entry is vacuously accepted by both
disambiguation attempts — whatever the Matcher does (it is never invoked
on the entry): the entry is classified, skipped without any schema
validation, `testcase_num` advances by two, and (when `warn` is set) each
of the two attempts prints a WARNING line; the loop then continues with
the remaining entries. -/
theorem C10_null_testcase_vacuous_double_advance (m : Matcher)
    (rest : List PyVal) (t_s p_s subS fileS c_schema abs_v spec_v : PyVal)
    (warn : Bool) (num : Nat)
    (hsub : subS.isNone = false) (hfile : fileS.isNone = false) :
    testcasesLoop m (PyVal.none :: rest) t_s p_s subS fileS c_schema
        abs_v spec_v warn num =
      ((if warn then [nullAttemptWarning, nullAttemptWarning] else []) ++
        (testcasesLoop m rest t_s p_s subS fileS c_schema abs_v spec_v
          warn (num + 2)).1,
       (testcasesLoop m rest t_s p_s subS fileS c_schema abs_v spec_v
          warn (num + 2)).2) := by
  have h1 : ∀ es : PyVal, es.isNone = false →
      validate_schema m PyVal.none es "" "" false warn
        = ((if warn then [nullAttemptWarning] else []), .ok ()) := by
    intro es hes
    unfold validate_schema
    rw [show resolveChunks PyVal.none es "" = .ok (PyVal.none, es) from rfl]
    dsimp only
    rw [hes]
    rfl
  have h2 : ∀ (es : PyVal), es.isNone = false → ∀ (n : Nat) (sc : Bool),
      tryOne m PyVal.none es warn n sc
        = ((if warn then [nullAttemptWarning] else []),
           Option.none, n + 1, true) := by
    intro es hes n sc
    unfold tryOne
    rw [h1 es hes]
  have h3 : disambiguate m PyVal.none subS fileS warn num
      = ((if warn then [nullAttemptWarning] else []) ++
         (if warn then [nullAttemptWarning] else []),
         Option.none, num + 2, true) := by
    unfold disambiguate
    rw [h2 subS hsub num false]
    dsimp only
    rw [h2 fileS hfile (num + 1) true]
  conv_lhs => unfold testcasesLoop
  rw [h3]
  dsimp only
  cases warn <;> rfl

theorem C10_null_testcase_vacuous_double_advance_witness :
    (PyVal.dict []).isNone = false ∧
    testcasesLoop okMatcher [PyVal.none] (PyVal.dict []) (PyVal.dict [])
        (PyVal.dict []) (PyVal.dict []) (PyVal.dict []) (PyVal.dict [])
        (PyVal.dict []) true 1
      = ([nullAttemptWarning, nullAttemptWarning], .ok ()) :=
  ⟨rfl, C10_null_testcase_vacuous_double_advance okMatcher []
    (PyVal.dict []) (PyVal.dict []) (PyVal.dict []) (PyVal.dict [])
    (PyVal.dict []) (PyVal.dict []) (PyVal.dict []) true 1 rfl rfl⟩
